import Mathlib

/-
Verification of the retrying dispatcher in services/agent_service.py.

The embedding below translates the module line by line:
  - PyExc models Python exception values raised inside the worker closure or
    by the awaiting machinery; every constructor models a subclass of the
    built-in Exception class.
  - Block / Message model the duck-typed agent response shape that
    _extract_final_text scans (a message dict with an optional "content" list
    of blocks, each block optionally carrying a "text" key).
  - Settings models config.settings.Settings (only the fields the dispatcher
    reads); durations are rationals.
  - WorkerBehavior abstracts one submission of _call_agent_blocking to the
    pool together with the await: the task may return a raw response, raise,
    or fail to finish before the timeout.
  - attemptLoopSync / attemptLoopAsync translate the two retry loops of
    process_agent_request and process_agent_request_async; each returns the
    outcome together with an observable trace (number of submissions, the
    timeout passed to each await, the backoff sleeps performed).
  - The module-global _executor, _get_executor and shutdown_executor are
    modelled as explicit state passing over Option Pool.
-/

namespace Luna

/-- Python exception values that can cross the worker/await boundary.
Every constructor models a subclass of Exception, so the catch-all
handler of the retry loop catches each of them. -/
inductive PyExc where
  | futuresTimeout
  | asyncioTimeout
  | valueError (msg : String)
  | other (tag : String)
deriving DecidableEq, Repr

/-- One content block of the agent response; `text = some t` models the
block dict containing a "text" key with value `t`, `none` models a block
without a "text" key. -/
structure Block where
  text : Option String
deriving DecidableEq, Repr

/-- The `message` attribute of the agent response; `content = some bs`
models the message dict containing a "content" key holding the list `bs`. -/
structure Message where
  content : Option (List Block)
deriving DecidableEq, Repr

/-- A raw agent response as `_extract_final_text` sees it: `none` models a
falsy response or one without a `message` attribute. -/
abbrev AgentResponse := Option Message

/-- The ValueError raised by `_extract_final_text` when no text is found. -/
def extractionError : PyExc :=
  .valueError "Could not extract \x27message.content[0].text\x27 from response."

/-- The for-loop of `_extract_final_text`: `final_response_text` starts as
the empty string, blocks are scanned in order, and the loop breaks at the
first block containing a "text" key, keeping its value (even if empty). -/
def scanText : List Block → String
  | [] => ""
  | b :: rest =>
    match b.text with
    | some t => t
    | none => scanText rest

/-- Translation of `_extract_final_text`: compute `final_response_text` by
the scan above (empty when the response is falsy, has no message, or the
message has no "content" key), then raise ValueError if it is falsy. -/
def extractFinalText (resp : AgentResponse) : Except PyExc String :=
  let final_response_text :=
    match resp with
    | none => ""
    | some m =>
      match m.content with
      | none => ""
      | some content_list => scanText content_list
  if final_response_text = "" then .error extractionError
  else .ok final_response_text

/-- The settings fields read by the dispatcher (config.settings.Settings):
AGENT_MAX_RETRIES, AGENT_RETRY_BACKOFF_BASE_SEC, AGENT_RETRY_BACKOFF_MAX_SEC,
AGENT_CALL_TIMEOUT_SEC. -/
structure Settings where
  agent_max_retries : Int
  agent_retry_backoff_base_sec : ℚ
  agent_retry_backoff_max_sec : ℚ
  agent_call_timeout_sec : ℚ
deriving DecidableEq, Repr

/-- Python `random.uniform(lo, hi)` with the underlying unit draw `u` made
explicit: it returns `lo + u * (hi - lo)` for some `u` in `[0, 1]`. -/
def randomUniform (lo hi u : ℚ) : ℚ := lo + u * (hi - lo)

/-- Translation of `_compute_backoff_delay`: exponential backoff capped at
the configured maximum, plus a uniform jitter in `[0, delay * 0.2]` drawn
with unit sample `u`. -/
def computeBackoffDelay (s : Settings) (attempt : Nat) (u : ℚ) : ℚ :=
  let base := s.agent_retry_backoff_base_sec
  let maxb := s.agent_retry_backoff_max_sec
  let delay := min maxb (base * 2 ^ attempt)
  let jitter := randomUniform 0 (delay * (1 / 5)) u
  delay + jitter

/-- Behavior of one submission of `_call_agent_blocking` for a given attempt:
the task may finish with a raw agent response, raise an exception (from the
agent call), or fail to finish before the await timeout elapses. -/
inductive WorkerBehavior where
  | returns (resp : AgentResponse)
  | raises (e : PyExc)
  | timesOut
deriving DecidableEq, Repr

/-- What the dispatcher observes from awaiting one submission
(`fut.result(timeout=...)` resp. `asyncio.wait_for(...)`): the extracted
text, or the exception raised — `timeoutExc` names the exception type the
awaiting machinery raises on timeout (concurrent.futures.TimeoutError in
the blocking loop, asyncio.TimeoutError in the suspending loop). The task
itself runs `_call_agent_blocking`, which applies `_extract_final_text`
to the raw response. -/
def awaitResult (wb : WorkerBehavior) (timeoutExc : PyExc) : Except PyExc String :=
  match wb with
  | .timesOut => .error timeoutExc
  | .raises e => .error e
  | .returns resp => extractFinalText resp

/-- The `except Exception` clause of both retry loops: every modelled
exception is a subclass of Exception, hence caught. -/
def catchesException : PyExc → Bool
  | .futuresTimeout => true
  | .asyncioTimeout => true
  | .valueError _ => true
  | .other _ => true

deriving instance DecidableEq for Except

/-- Observable trace of one dispatcher call: the value returned to the
caller (`Except.error` would be an exception escaping the dispatcher),
the number of submissions of `_call_agent_blocking` to the pool, the
timeout passed to each await (`none` would be an unbounded await), and
the backoff sleeps performed between attempts. -/
structure DispatchTrace where
  result : Except PyExc (Option String)
  executions : Nat
  timeoutsUsed : List (Option ℚ)
  delays : List ℚ
deriving DecidableEq, Repr

/-- Trace of a dispatcher call that returns None without touching the pool. -/
def zeroTrace : DispatchTrace :=
  { result := .ok none, executions := 0, timeoutsUsed := [], delays := [] }

/-- The retry loop of `process_agent_request`
(`for attempt in range(0, max_retries + 1)`), with `fuel` the number of
remaining iterations. Each iteration submits `_call_agent_blocking` and
awaits `fut.result(timeout=timeout_s)`; on success it returns the text; on
FuturesTimeout or any Exception it records the exception and, when
`attempt < maxRetries`, sleeps `_compute_backoff_delay(attempt)` before the
next iteration. Falling out of the loop returns None. -/
def attemptLoopSync (w : Nat → Option ℚ → WorkerBehavior) (s : Settings)
    (jit : Nat → ℚ) (timeout_s : ℚ) (maxRetries : Nat) :
    Nat → Nat → DispatchTrace
  | _, 0 => zeroTrace
  | attempt, fuel + 1 =>
    match awaitResult (w attempt (some timeout_s)) PyExc.futuresTimeout with
    | .ok text =>
      { result := .ok (some text), executions := 1,
        timeoutsUsed := [some timeout_s], delays := [] }
    | .error e =>
      if catchesException e then
        let rest := attemptLoopSync w s jit timeout_s maxRetries (attempt + 1) fuel
        { result := rest.result, executions := rest.executions + 1,
          timeoutsUsed := some timeout_s :: rest.timeoutsUsed,
          delays :=
            if attempt < maxRetries then
              computeBackoffDelay s attempt (jit attempt) :: rest.delays
            else rest.delays }
      else
        { result := .error e, executions := 1,
          timeoutsUsed := [some timeout_s], delays := [] }

/-- The retry loop of `process_agent_request_async`: identical shape, but
the await is `asyncio.wait_for(loop.run_in_executor(...), timeout=timeout_s)`
which raises asyncio.TimeoutError on timeout, and the backoff sleep is
`await asyncio.sleep(delay)`. -/
def attemptLoopAsync (w : Nat → Option ℚ → WorkerBehavior) (s : Settings)
    (jit : Nat → ℚ) (timeout_s : ℚ) (maxRetries : Nat) :
    Nat → Nat → DispatchTrace
  | _, 0 => zeroTrace
  | attempt, fuel + 1 =>
    match awaitResult (w attempt (some timeout_s)) PyExc.asyncioTimeout with
    | .ok text =>
      { result := .ok (some text), executions := 1,
        timeoutsUsed := [some timeout_s], delays := [] }
    | .error e =>
      if catchesException e then
        let rest := attemptLoopAsync w s jit timeout_s maxRetries (attempt + 1) fuel
        { result := rest.result, executions := rest.executions + 1,
          timeoutsUsed := some timeout_s :: rest.timeoutsUsed,
          delays :=
            if attempt < maxRetries then
              computeBackoffDelay s attempt (jit attempt) :: rest.delays
            else rest.delays }
      else
        { result := .error e, executions := 1,
          timeoutsUsed := [some timeout_s], delays := [] }

/-- Python truthiness test `not model_id` on an Optional[str]: true for
None and for the empty string. -/
def pyFalsyStr : Option String → Bool
  | none => true
  | some s => s = ""

/-- Translation of `process_agent_request`: fail fast with None when
`model_id` is falsy; otherwise run the retry loop with
`max_retries = max(0, settings.agent_max_retries)` and
`timeout_s = max(1.0, settings.agent_call_timeout_sec)`. The job strings
are carried for fidelity; the worker closure over them is abstracted by
`w`, the jitter draws by `jit`. -/
def processAgentRequest (s : Settings) (w : Nat → Option ℚ → WorkerBehavior)
    (jit : Nat → ℚ) (_chat_id _input_text : String)
    (model_id : Option String) : DispatchTrace :=
  if pyFalsyStr model_id then zeroTrace
  else
    let max_retries := (max 0 s.agent_max_retries).toNat
    let timeout_s := max 1 s.agent_call_timeout_sec
    attemptLoopSync w s jit timeout_s max_retries 0 (max_retries + 1)

/-- Translation of `process_agent_request_async`: the same fail-fast guard
and the same derived `max_retries` and `timeout_s`, running the suspending
retry loop. -/
def processAgentRequestAsync (s : Settings) (w : Nat → Option ℚ → WorkerBehavior)
    (jit : Nat → ℚ) (_chat_id _input_text : String)
    (model_id : Option String) : DispatchTrace :=
  if pyFalsyStr model_id then zeroTrace
  else
    let max_retries := (max 0 s.agent_max_retries).toNat
    let timeout_s := max 1 s.agent_call_timeout_sec
    attemptLoopAsync w s jit timeout_s max_retries 0 (max_retries + 1)

/-- The ThreadPoolExecutor as far as submission is concerned: after
`shutdown` it refuses new work. -/
structure Pool where
  closed : Bool
deriving DecidableEq, Repr

/-- `ThreadPoolExecutor(max_workers=4, ...)`: a fresh, open pool. -/
def newPool : Pool := { closed := false }

/-- Outcome of `executor.submit(...)`: accepted, or the RuntimeError a
shut-down executor raises. -/
inductive SubmitResult where
  | accepted
  | poolClosed
deriving DecidableEq, Repr

/-- `Pool.submit` models `ThreadPoolExecutor.submit`: raises once the pool
has been shut down, accepts otherwise. -/
def Pool.submit (p : Pool) : SubmitResult :=
  if p.closed then .poolClosed else .accepted

/-- Translation of `_get_executor` over the module-global `_executor`
state: create the pool lazily when the global is None, else reuse it.
Returns the executor handed to the caller and the new global state. -/
def getExecutor : Option Pool → Pool × Option Pool
  | none => (newPool, some newPool)
  | some p => (p, some p)

/-- Translation of `shutdown_executor`: when the global holds a pool, call
its `shutdown` and reset the global to None; otherwise do nothing. The
second component counts the `ThreadPoolExecutor.shutdown` calls performed
(the resource releases). -/
def shutdownExecutor : Option Pool → Option Pool × Nat
  | some _ => (none, 1)
  | none => (none, 0)

/-- The submission path of the dispatcher body
(`executor = _get_executor(); fut = executor.submit(...)`): fetch or
lazily create the pool, then submit. -/
def submitViaGlobal (st : Option Pool) : SubmitResult × Option Pool :=
  let (p, st') := getExecutor st
  (p.submit, st')

/-- The first block of a content list that carries a "text" key, returning
its text (possibly empty). Phrased with `List.find?` to mirror the amended
reading of the spec: first-match-wins on the presence of the key, not on
non-emptiness of the value. -/
def firstKeyedText (bs : List Block) : Option String :=
  (bs.find? (fun b => b.text.isSome)).bind (fun b => b.text)

/-- Amended extractor contract, written from the amended claim: return the
text of the first block carrying a "text" key; fail when the message
structure is absent, no block carries a "text" key, or that first text is
empty. -/
def extractSpecAmended (resp : AgentResponse) : Except PyExc String :=
  match resp with
  | none => .error extractionError
  | some m =>
    match m.content with
    | none => .error extractionError
    | some bs =>
      match firstKeyedText bs with
      | none => .error extractionError
      | some t => if t = "" then .error extractionError else .ok t

/-- Classification of one submission as the retry loop sees it: `some t`
when the await yields extracted text `t`, `none` when it raises (timeout,
worker exception, or extraction failure) — the identity of the exception
never influences the loop, only this classification does. -/
def outcomeText (wb : WorkerBehavior) : Option String :=
  match awaitResult wb PyExc.futuresTimeout with
  | .ok t => some t
  | .error _ => none

/-- Replace every failing submission of `w` (timeout, raised exception, or
extraction failure) by a plain transient worker exception, keeping the
successes. Used to state that the dispatcher treats extraction failures
exactly like transient worker failures. -/
def transientize (w : Nat → Option ℚ → WorkerBehavior) :
    Nat → Option ℚ → WorkerBehavior :=
  fun a t =>
    match outcomeText (w a t) with
    | some _ => w a t
    | none => .raises (.other "transient worker failure")

/-- Worker whose agent call raises on every attempt. -/
def wFail : Nat → Option ℚ → WorkerBehavior := fun _ _ => .raises (.other "boom")

/-- Worker that responds on every attempt with a message whose content list
is empty, so extraction always fails. -/
def wExtractFail : Nat → Option ℚ → WorkerBehavior :=
  fun _ _ => .returns (some { content := some [] })

/-- Jitter source drawing zero on every attempt. -/
def jitZero : Nat → ℚ := fun _ => 0

/-- Settings with the documented defaults except a zero retry budget. -/
def cfg0 : Settings :=
  { agent_max_retries := 0, agent_retry_backoff_base_sec := 1,
    agent_retry_backoff_max_sec := 1, agent_call_timeout_sec := 45 }

/-- Settings with one retry. -/
def cfg1 : Settings :=
  { agent_max_retries := 1, agent_retry_backoff_base_sec := 1,
    agent_retry_backoff_max_sec := 1, agent_call_timeout_sec := 45 }

/-- Settings with the default retry budget of two. -/
def cfg2 : Settings :=
  { agent_max_retries := 2, agent_retry_backoff_base_sec := 1,
    agent_retry_backoff_max_sec := 1, agent_call_timeout_sec := 45 }

theorem catchesException_true (e : PyExc) : catchesException e = true := by
  cases e <;> rfl

theorem awaitResult_ok_iff (wb : WorkerBehavior) (te : PyExc) (t : String) :
    awaitResult wb te = .ok t ↔ outcomeText wb = some t := by
  cases wb with
  | timesOut => simp [awaitResult, outcomeText]
  | raises e => simp [awaitResult, outcomeText]
  | returns resp =>
    simp only [awaitResult, outcomeText]
    cases h : extractFinalText resp <;> simp

theorem awaitResult_error (wb : WorkerBehavior) (te : PyExc)
    (h : outcomeText wb = none) : ∃ e, awaitResult wb te = .error e := by
  cases wb with
  | timesOut => exact ⟨te, rfl⟩
  | raises e => exact ⟨e, rfl⟩
  | returns resp =>
    simp only [outcomeText, awaitResult] at h ⊢
    cases h2 : extractFinalText resp with
    | ok s => rw [h2] at h; simp at h
    | error e => exact ⟨e, rfl⟩

theorem attemptLoop_sync_eq_async (w : Nat → Option ℚ → WorkerBehavior)
    (s : Settings) (jit : Nat → ℚ) (t : ℚ) (mr : Nat) :
    ∀ fuel attempt, attemptLoopSync w s jit t mr attempt fuel
      = attemptLoopAsync w s jit t mr attempt fuel := by
  intro fuel
  induction fuel with
  | zero => intro _; rfl
  | succ f ih =>
    intro attempt
    simp only [attemptLoopSync, attemptLoopAsync]
    cases hw : w attempt (some t) with
    | returns resp =>
      simp only [awaitResult]
      cases hx : extractFinalText resp with
      | ok s' => rfl
      | error e => simp [catchesException_true, ih]
    | raises e => simp [awaitResult, catchesException_true, ih]
    | timesOut => simp [awaitResult, catchesException_true, ih]

theorem attemptLoopSync_executions_le (w : Nat → Option ℚ → WorkerBehavior)
    (s : Settings) (jit : Nat → ℚ) (t : ℚ) (mr : Nat) :
    ∀ fuel attempt, (attemptLoopSync w s jit t mr attempt fuel).executions ≤ fuel := by
  intro fuel
  induction fuel with
  | zero => intro _; exact Nat.le_refl 0
  | succ f ih =>
    intro attempt
    simp only [attemptLoopSync]
    cases hw : awaitResult (w attempt (some t)) PyExc.futuresTimeout with
    | ok s' => simp
    | error e =>
      simp only [catchesException_true, if_true]
      exact Nat.succ_le_succ (ih (attempt + 1))

theorem attemptLoopSync_result_ok (w : Nat → Option ℚ → WorkerBehavior)
    (s : Settings) (jit : Nat → ℚ) (t : ℚ) (mr : Nat) :
    ∀ fuel attempt, ∃ o, (attemptLoopSync w s jit t mr attempt fuel).result
      = .ok o := by
  intro fuel
  induction fuel with
  | zero => intro _; exact ⟨none, rfl⟩
  | succ f ih =>
    intro attempt
    simp only [attemptLoopSync]
    cases hw : awaitResult (w attempt (some t)) PyExc.futuresTimeout with
    | ok s' => exact ⟨some s', rfl⟩
    | error e =>
      simp only [catchesException_true, if_true]
      exact ih (attempt + 1)

theorem attemptLoopSync_timeouts (w : Nat → Option ℚ → WorkerBehavior)
    (s : Settings) (jit : Nat → ℚ) (t : ℚ) (mr : Nat) :
    ∀ fuel attempt, (attemptLoopSync w s jit t mr attempt fuel).timeoutsUsed
      = List.replicate (attemptLoopSync w s jit t mr attempt fuel).executions
          (some t) := by
  intro fuel
  induction fuel with
  | zero => intro _; rfl
  | succ f ih =>
    intro attempt
    simp only [attemptLoopSync]
    cases hw : awaitResult (w attempt (some t)) PyExc.futuresTimeout with
    | ok s' => rfl
    | error e =>
      simp only [catchesException_true, if_true]
      simp [List.replicate_succ, ih (attempt + 1)]

theorem attemptLoopSync_congr (w1 w2 : Nat → Option ℚ → WorkerBehavior)
    (s : Settings) (jit : Nat → ℚ) (t : ℚ) (mr : Nat)
    (h : ∀ a tm, outcomeText (w1 a tm) = outcomeText (w2 a tm)) :
    ∀ fuel attempt, attemptLoopSync w1 s jit t mr attempt fuel
      = attemptLoopSync w2 s jit t mr attempt fuel := by
  intro fuel
  induction fuel with
  | zero => intro _; rfl
  | succ f ih =>
    intro attempt
    simp only [attemptLoopSync]
    cases h1 : outcomeText (w1 attempt (some t)) with
    | some s' =>
      have e1 : awaitResult (w1 attempt (some t)) PyExc.futuresTimeout = .ok s' :=
        (awaitResult_ok_iff _ _ _).mpr h1
      have e2 : awaitResult (w2 attempt (some t)) PyExc.futuresTimeout = .ok s' :=
        (awaitResult_ok_iff _ _ _).mpr ((h attempt (some t)) ▸ h1)
      rw [e1, e2]
    | none =>
      obtain ⟨e1, he1⟩ := awaitResult_error _ PyExc.futuresTimeout h1
      obtain ⟨e2, he2⟩ := awaitResult_error (w2 attempt (some t))
        PyExc.futuresTimeout ((h attempt (some t)) ▸ h1)
      rw [he1, he2]
      simp [catchesException_true, ih]

theorem backoff_range_shift (s : Settings) (jit : Nat → ℚ) (a f : Nat) :
    computeBackoffDelay s a (jit a)
        :: (List.range f).map
            (fun i => computeBackoffDelay s (a + 1 + i) (jit (a + 1 + i)))
      = (List.range (f + 1)).map
          (fun i => computeBackoffDelay s (a + i) (jit (a + i))) := by
  rw [List.range_succ_eq_map, List.map_cons, List.map_map]
  have h2 : ((fun i => computeBackoffDelay s (a + i) (jit (a + i))) ∘ Nat.succ)
      = fun i => computeBackoffDelay s (a + 1 + i) (jit (a + 1 + i)) := by
    funext i
    have h3 : a + Nat.succ i = a + 1 + i := by omega
    simp [Function.comp, h3]
  simp [h2]

theorem attemptLoopSync_allFail (w : Nat → Option ℚ → WorkerBehavior)
    (s : Settings) (jit : Nat → ℚ) (t : ℚ) (mr : Nat)
    (h : ∀ a, outcomeText (w a (some t)) = none) :
    ∀ fuel attempt, attempt + fuel = mr + 1 →
      attemptLoopSync w s jit t mr attempt fuel =
        { result := .ok none, executions := fuel,
          timeoutsUsed := List.replicate fuel (some t),
          delays := (List.range (fuel - 1)).map
            (fun i => computeBackoffDelay s (attempt + i) (jit (attempt + i))) } := by
  intro fuel
  induction fuel with
  | zero => intro _ _; rfl
  | succ f ih =>
    intro attempt ha
    obtain ⟨e, he⟩ := awaitResult_error (w attempt (some t))
      PyExc.futuresTimeout (h attempt)
    simp only [attemptLoopSync, he, catchesException_true, if_true]
    rw [ih (attempt + 1) (by omega)]
    by_cases hf : f = 0
    · subst hf
      have hlt : ¬ attempt < mr := by omega
      simp [hlt, List.replicate]
    · obtain ⟨f', rfl⟩ := Nat.exists_eq_succ_of_ne_zero hf
      have hlt : attempt < mr := by omega
      simp [hlt, Nat.succ_sub_one, List.replicate_succ,
        backoff_range_shift s jit attempt f']

theorem attemptLoopSync_one_attempt (w : Nat → Option ℚ → WorkerBehavior)
    (s : Settings) (jit : Nat → ℚ) (t : ℚ) :
    (attemptLoopSync w s jit t 0 0 1).executions = 1
      ∧ (attemptLoopSync w s jit t 0 0 1).delays = [] := by
  simp only [attemptLoopSync]
  cases hw : awaitResult (w 0 (some t)) PyExc.futuresTimeout with
  | ok s' => exact ⟨rfl, rfl⟩
  | error e => simp [catchesException_true, zeroTrace]

theorem scanText_eq (bs : List Block) :
    scanText bs = (firstKeyedText bs).getD "" := by
  induction bs with
  | nil => rfl
  | cons b rest ih =>
    cases hb : b.text with
    | some t => simp [scanText, firstKeyedText, List.find?_cons, hb]
    | none => simp [scanText, firstKeyedText, List.find?_cons, hb, ih]

/-- C2 counterexample: on the raw response
`{message: {content: [{text: ""}, {text: "hello"}]}}` the extractor raises
the extraction ValueError instead of returning "hello": the scan breaks at
the FIRST block carrying a "text" key, and its empty text then fails the
non-emptiness check, so the later non-empty block is never reached. -/
theorem c2_first_nonempty_counterexample :
    extractFinalText
        (some { content := some [{ text := some "" }, { text := some "hello" }] })
      = .error extractionError
    ∧ extractFinalText
        (some { content := some [{ text := some "" }, { text := some "hello" }] })
      ≠ .ok "hello" := by
  decide

/-- C2 (amended): `_extract_final_text` scans the ordered content blocks for
the first block carrying a "text" key, regardless of the emptiness of its
value, and returns that text; it raises the extraction ValueError exactly
when the message structure is absent, when no block carries a "text" key,
or when the text of the first such block is empty. This is stated as equality
with `extractSpecAmended`, the amended contract written from those words. -/
theorem c2_extractor_first_keyed_block (resp : AgentResponse) :
    extractFinalText resp = extractSpecAmended resp := by
  cases resp with
  | none => rfl
  | some m =>
    cases hc : m.content with
    | none => simp [extractFinalText, extractSpecAmended, hc]
    | some bs =>
      simp only [extractFinalText, extractSpecAmended, hc]
      rw [scanText_eq]
      cases hf : firstKeyedText bs with
      | none => rfl
      | some t => simp [Option.getD]

/-- C3 counterexample: starting from a live pool, run `shutdown_executor`
and then attempt a submission the way the dispatcher does
(`_get_executor()` followed by `submit`): the submission is ACCEPTED on a
freshly recreated pool rather than failing with a PoolClosed error. -/
theorem c3_submit_after_shutdown_counterexample :
    (submitViaGlobal (shutdownExecutor (some newPool)).1).1 = SubmitResult.accepted
      ∧ (submitViaGlobal (shutdownExecutor (some newPool)).1).1 ≠ SubmitResult.poolClosed
      ∧ (submitViaGlobal (shutdownExecutor (some newPool)).1).2 = some newPool := by
  decide

/-- C3 (amended): `shutdown_executor` resets the module global to None, so
a subsequent submission attempt does not fail with a PoolClosed error:
`_get_executor` lazily recreates a fresh open pool and the submission is
accepted, from any prior executor state. -/
theorem c3_submit_after_shutdown (st : Option Pool) :
    submitViaGlobal (shutdownExecutor st).1 = (SubmitResult.accepted, some newPool) := by
  cases st <;> rfl

/-- C9: `shutdown_executor` is idempotent: after one call the global state
is cleared, and a second call returns the same cleared state while
performing zero further `ThreadPoolExecutor.shutdown` calls (no double
release of resources), with no error path. -/
theorem c9_shutdown_idempotent (st : Option Pool) :
    shutdownExecutor (shutdownExecutor st).1 = ((shutdownExecutor st).1, 0) := by
  cases st <;> rfl

/-- C5: `process_agent_request` and `process_agent_request_async` implement
the same retry loop: for the same job, the same per-attempt worker outcomes
and the same jitter draws, the two entry points produce identical traces —
in particular the same returned text or the same None. -/
theorem c5_blocking_async_equivalent (s : Settings)
    (w : Nat → Option ℚ → WorkerBehavior) (jit : Nat → ℚ)
    (chat_id input_text : String) (model_id : Option String) :
    processAgentRequest s w jit chat_id input_text model_id
      = processAgentRequestAsync s w jit chat_id input_text model_id := by
  unfold processAgentRequest processAgentRequestAsync
  by_cases h : pyFalsyStr model_id
  · simp [h]
  · simp [h, attemptLoop_sync_eq_async]

/-- C7: for every configured job and every worker behavior — raising an
arbitrary exception, timing out, or producing an unextractable response —
`process_agent_request` returns normally with either the extracted text or
None: its result is always `Except.ok`, never a propagated exception. -/
theorem c7_no_exception_escapes (s : Settings)
    (w : Nat → Option ℚ → WorkerBehavior) (jit : Nat → ℚ)
    (chat_id input_text : String) (model_id : Option String) :
    ∃ o : Option String,
      (processAgentRequest s w jit chat_id input_text model_id).result
        = .ok o := by
  unfold processAgentRequest
  by_cases h : pyFalsyStr model_id
  · exact ⟨none, by simp [h, zeroTrace]⟩
  · simp only [h, Bool.false_eq_true, if_false]
    exact attemptLoopSync_result_ok w s jit _ _ _ 0

/-- C1: per dispatched job, the number of submissions of
`_call_agent_blocking` to the pool is at most `maxRetries + 1`; it is
exactly 0 when `model_id` is absent; and with `maxRetries = 0` on a
configured job exactly one attempt is made, with no backoff sleep. -/
theorem c1_attempt_budget (s : Settings) (w : Nat → Option ℚ → WorkerBehavior)
    (jit : Nat → ℚ) (chat_id input_text : String) (model_id : Option String)
    (h : 0 ≤ s.agent_max_retries) :
    (processAgentRequest s w jit chat_id input_text model_id).executions
        ≤ s.agent_max_retries.toNat + 1
      ∧ (model_id = none →
          (processAgentRequest s w jit chat_id input_text model_id).executions = 0)
      ∧ (s.agent_max_retries = 0 → pyFalsyStr model_id = false →
          (processAgentRequest s w jit chat_id input_text model_id).executions = 1
            ∧ (processAgentRequest s w jit chat_id input_text model_id).delays
                = []) := by
  have hmax : max 0 s.agent_max_retries = s.agent_max_retries := max_eq_right h
  refine ⟨?_, ?_, ?_⟩
  · unfold processAgentRequest
    by_cases hm : pyFalsyStr model_id
    · simp [hm, zeroTrace]
    · simp only [hm, Bool.false_eq_true, if_false, hmax]
      exact attemptLoopSync_executions_le w s jit _ _ _ 0
  · intro hm
    subst hm
    simp [processAgentRequest, pyFalsyStr, zeroTrace]
  · intro h0 hm
    unfold processAgentRequest
    simp only [hm, Bool.false_eq_true, if_false, hmax, h0]
    exact attemptLoopSync_one_attempt w s jit _
/-- C1 witness: with the default retry budget of two a failing worker is
submitted at most three times; with no model_id there is no submission;
with a zero retry budget there is exactly one submission and no sleep. -/
theorem c1_attempt_budget_witness :
    (processAgentRequest cfg2 wFail jitZero "c" "i" (some "m")).executions ≤ 3
      ∧ (processAgentRequest cfg2 wFail jitZero "c" "i" none).executions = 0
      ∧ (processAgentRequest cfg0 wFail jitZero "c" "i" (some "m")).executions = 1
      ∧ (processAgentRequest cfg0 wFail jitZero "c" "i" (some "m")).delays = [] :=
  ⟨(c1_attempt_budget cfg2 wFail jitZero "c" "i" (some "m") (by decide)).1,
   (c1_attempt_budget cfg2 wFail jitZero "c" "i" none (by decide)).2.1 rfl,
   ((c1_attempt_budget cfg0 wFail jitZero "c" "i" (some "m") (by decide)).2.2
      rfl (by decide)).1,
   ((c1_attempt_budget cfg0 wFail jitZero "c" "i" (some "m") (by decide)).2.2
      rfl (by decide)).2⟩

/-- C4 counterexample: with base = maxDelay = 1 and attemptIndex = 1 the
cap is active: the raw delay is min(1, 1*2^1) = 1, and with the valid
jitter draw u = 0 the computed delay is 1, strictly below the claimed
lower bound base*2^1 = 2. -/
theorem c4_backoff_interval_counterexample :
    (0:ℚ) ≤ 0 ∧ (0:ℚ) ≤ 1
      ∧ computeBackoffDelay cfg2 1 0 = 1
      ∧ ¬ (cfg2.agent_retry_backoff_base_sec * 2 ^ 1 ≤ computeBackoffDelay cfg2 1 0) := by
  refine ⟨le_refl 0, by norm_num, ?_, ?_⟩
  · norm_num [computeBackoffDelay, randomUniform, cfg2, min_def]
  · norm_num [computeBackoffDelay, randomUniform, cfg2, min_def]

/-- C4 (amended): for every attemptIndex and every jitter draw, the backoff
delay lies in the closed interval [raw, 1.2 * raw] where
raw = min(maxDelay, base * 2^attemptIndex) — the lower bound is the capped
raw delay, not the uncapped base * 2^attemptIndex of the claim. -/
theorem c4_backoff_interval (s : Settings) (a : Nat) (u : ℚ)
    (hu0 : 0 ≤ u) (hu1 : u ≤ 1)
    (hbase : 0 ≤ s.agent_retry_backoff_base_sec)
    (hmax : 0 ≤ s.agent_retry_backoff_max_sec) :
    min s.agent_retry_backoff_max_sec (s.agent_retry_backoff_base_sec * 2 ^ a)
        ≤ computeBackoffDelay s a u
      ∧ computeBackoffDelay s a u
        ≤ (6 / 5) * min s.agent_retry_backoff_max_sec
            (s.agent_retry_backoff_base_sec * 2 ^ a) := by
  have hpow : (0:ℚ) ≤ s.agent_retry_backoff_base_sec * 2 ^ a :=
    mul_nonneg hbase (by positivity)
  have hraw : (0:ℚ) ≤ min s.agent_retry_backoff_max_sec
      (s.agent_retry_backoff_base_sec * 2 ^ a) := le_min hmax hpow
  simp only [computeBackoffDelay, randomUniform]
  constructor <;>
    nlinarith [mul_nonneg hu0 hraw, mul_le_of_le_one_left hraw hu1]
/-- C4 witness: the amended bounds hold at the counterexample input. -/
theorem c4_backoff_interval_witness :
    min cfg2.agent_retry_backoff_max_sec (cfg2.agent_retry_backoff_base_sec * 2 ^ 1)
        ≤ computeBackoffDelay cfg2 1 0
      ∧ computeBackoffDelay cfg2 1 0
        ≤ (6 / 5) * min cfg2.agent_retry_backoff_max_sec
            (cfg2.agent_retry_backoff_base_sec * 2 ^ 1) :=
  c4_backoff_interval cfg2 1 0 (le_refl 0) (by decide) (by decide) (by decide)

/-- C6: an extraction failure is handled exactly like a transient worker
failure: a worker whose every attempt yields an unextractable response
produces the very same trace as one whose every attempt raises a transient
exception — a backoff sleep before each retry (delays for attempts
0..maxRetries-1), all maxRetries+1 attempts consumed, and only then the
exhaustion result None returned to the caller. -/
theorem c6_extraction_failure_retried (s : Settings)
    (w : Nat → Option ℚ → WorkerBehavior) (jit : Nat → ℚ)
    (chat_id input_text : String) (model_id : Option String)
    (hr : 0 ≤ s.agent_max_retries)
    (hm : pyFalsyStr model_id = false)
    (hfail : ∀ a tm, ∃ resp, w a tm = .returns resp
        ∧ extractFinalText resp = .error extractionError) :
    processAgentRequest s w jit chat_id input_text model_id
        = processAgentRequest s (transientize w) jit chat_id input_text model_id
      ∧ (processAgentRequest s w jit chat_id input_text model_id).result = .ok none
      ∧ (processAgentRequest s w jit chat_id input_text model_id).executions
          = s.agent_max_retries.toNat + 1
      ∧ (processAgentRequest s w jit chat_id input_text model_id).delays
          = (List.range s.agent_max_retries.toNat).map
              (fun a => computeBackoffDelay s a (jit a)) := by
  have hnone : ∀ a tm, outcomeText (w a tm) = none := by
    intro a tm
    obtain ⟨resp, hwa, hx⟩ := hfail a tm
    simp [outcomeText, awaitResult, hwa, hx]
  have hmax : max 0 s.agent_max_retries = s.agent_max_retries := max_eq_right hr
  have hcongr : ∀ a tm, outcomeText (w a tm) = outcomeText (transientize w a tm) := by
    intro a tm
    have h1 : transientize w a tm = .raises (.other "transient worker failure") := by
      simp [transientize, hnone a tm]
    rw [h1, hnone a tm]
    rfl
  have hall := attemptLoopSync_allFail w s jit (max 1 s.agent_call_timeout_sec)
      s.agent_max_retries.toNat
      (fun a => hnone a (some (max 1 s.agent_call_timeout_sec)))
      (s.agent_max_retries.toNat + 1) 0 (by omega)
  refine ⟨?_, ?_, ?_, ?_⟩
  · unfold processAgentRequest
    simp only [hm, Bool.false_eq_true, if_false, hmax]
    exact attemptLoopSync_congr w (transientize w) s jit _ _ hcongr _ 0
  · unfold processAgentRequest
    simp only [hm, Bool.false_eq_true, if_false, hmax, hall]
  · unfold processAgentRequest
    simp only [hm, Bool.false_eq_true, if_false, hmax, hall]
  · unfold processAgentRequest
    simp only [hm, Bool.false_eq_true, if_false, hmax, hall]
    simp [Nat.add_sub_cancel]
/-- C6 witness: with one retry and a worker whose responses are never
extractable, the dispatcher consumes both attempts and returns None. -/
theorem c6_extraction_failure_retried_witness :
    (processAgentRequest cfg1 wExtractFail jitZero "c" "i" (some "m")).result
        = .ok none
      ∧ (processAgentRequest cfg1 wExtractFail jitZero "c" "i" (some "m")).executions
        = 2 :=
  ⟨(c6_extraction_failure_retried cfg1 wExtractFail jitZero "c" "i" (some "m")
      (by decide) (by decide)
      (fun _ _ => ⟨some { content := some [] }, rfl, rfl⟩)).2.1,
   (c6_extraction_failure_retried cfg1 wExtractFail jitZero "c" "i" (some "m")
      (by decide) (by decide)
      (fun _ _ => ⟨some { content := some [] }, rfl, rfl⟩)).2.2.1⟩

/-- C8: both entry points pass `max(1.0, callTimeout)` as the timeout of
every per-attempt await — each recorded await timeout equals
`some (max 1 callTimeout)` (present, never an unbounded None), and that
value is at least 1, so a callTimeout ≤ 0 is clamped up to the floor. -/
theorem c8_timeout_clamped (s : Settings)
    (w : Nat → Option ℚ → WorkerBehavior) (jit : Nat → ℚ)
    (chat_id input_text : String) (model_id : Option String) :
    (processAgentRequest s w jit chat_id input_text model_id).timeoutsUsed
        = List.replicate
            (processAgentRequest s w jit chat_id input_text model_id).executions
            (some (max 1 s.agent_call_timeout_sec))
      ∧ (processAgentRequestAsync s w jit chat_id input_text model_id).timeoutsUsed
        = List.replicate
            (processAgentRequestAsync s w jit chat_id input_text model_id).executions
            (some (max 1 s.agent_call_timeout_sec))
      ∧ (1:ℚ) ≤ max 1 s.agent_call_timeout_sec := by
  refine ⟨?_, ?_, le_max_left _ _⟩
  · unfold processAgentRequest
    by_cases hm : pyFalsyStr model_id
    · simp [hm, zeroTrace]
    · simp only [hm, Bool.false_eq_true, if_false]
      exact attemptLoopSync_timeouts w s jit _ _ _ 0
  · unfold processAgentRequestAsync
    by_cases hm : pyFalsyStr model_id
    · simp [hm, zeroTrace]
    · simp only [hm, Bool.false_eq_true, if_false]
      rw [← attemptLoop_sync_eq_async]
      exact attemptLoopSync_timeouts w s jit _ _ _ 0

/-- C10: an empty-string model_id is treated by both entry points exactly
like an absent one: the call returns None immediately, with zero pool
submissions, no await and no sleep. -/
theorem c10_empty_model_id (s : Settings)
    (w : Nat → Option ℚ → WorkerBehavior) (jit : Nat → ℚ)
    (chat_id input_text : String) :
    processAgentRequest s w jit chat_id input_text (some "")
        = processAgentRequest s w jit chat_id input_text none
      ∧ processAgentRequestAsync s w jit chat_id input_text (some "")
        = processAgentRequestAsync s w jit chat_id input_text none
      ∧ (processAgentRequest s w jit chat_id input_text (some "")).executions = 0
      ∧ (processAgentRequest s w jit chat_id input_text (some "")).result
        = .ok none := by
  refine ⟨rfl, rfl, rfl, rfl⟩

end Luna
